import Mathlib

/-!
Verification development for the m365py scooter driver (`src/m365py.py`).

The file shallowly embeds the protocol decoder (`M365Delegate.handle_message`),
the frame-reassembly engine (`M365Delegate.handleNotification`), and the device
state record (`M365State`) as executable Lean definitions, and proves the
specified properties about them.

Modelling conventions:
 - Python `bytes` values are `List Nat` (each element a byte value).
 - Python numbers are `ℚ` (struct-unpacked integers embed into `ℚ`; Python's
   `/` is exact on the decimal scale factors used here, and equality of the
   resulting binary floats coincides with rational equality for every literal
   compared in this file).
 - `struct.unpack` is modelled by `structUnpack`, which raises `structError`
   exactly when the buffer length differs from the format's size, as the
   Python function does for the fixed-size formats used in the source.
 - A Python dict built by `unpack_to_dict` is an insertion-ordered association
   list `List (String × Value)`; dict assignment is `assign`.
 - Exceptions are modelled with `Except` / an explicit `Option PyError` slot;
   an escaping exception is an `.error` / `some` value.
 - The module `M365Message` (attribute enumeration, `ParseStatus`,
   `Message.parse_from_bytes`) is not part of the repository sources; following
   the specification (§3, §4.2) the attribute identifiers are modelled as a
   closed inductive with an extra constructor for unrecognized identifiers,
   and the frame parser is an abstract parameter `parse` producing the three
   classifications of §4.2.
-/

/-- Exceptions that the decode path can raise: `struct.error` from
`struct.unpack` on a size mismatch, and `IndexError` from out-of-range
indexing (`payload[0]` on empty bytes, `s[2]` on a short string). -/
inductive PyError
  | structError
  | indexError
deriving DecidableEq, Repr

/-- A Python value stored in a decoded field map / the device state.
`bytesRepr l` stands for the string `str(b)` of a bytes object with contents
`l` (the source applies `str` to the unpacked `serial` and `pin` slices; no
property inspects the rendered text, so it is kept symbolic). `pyNone` is
Python `None`, the initial value of every declared `M365State` slot. -/
inductive Value
  | num (q : ℚ)
  | bool (b : Bool)
  | str (s : String)
  | bytesRepr (l : List Nat)
  | pyNone
deriving DecidableEq, Repr

/-- A raw value produced by `struct.unpack`: an integer or a bytes slice. -/
inductive RawVal
  | int (z : ℤ)
  | bytes (l : List Nat)
deriving DecidableEq, Repr

/-- One item of a `struct` format string (little-endian, as every format in
the source starts with `<`): `B`, `H`, `h`, `I`, `x`, and `ns`. -/
inductive FmtItem
  | u8
  | u16
  | i16
  | u32
  | pad
  | bstr (n : Nat)
deriving DecidableEq, Repr

/-- Byte size of one format item (`struct.calcsize` contribution). -/
def itemSize : FmtItem → Nat
  | .u8 => 1
  | .u16 => 2
  | .i16 => 2
  | .u32 => 4
  | .pad => 1
  | .bstr n => n

/-- `struct.calcsize` of a whole format. -/
def fmtSize (fmt : List FmtItem) : Nat :=
  (fmt.map itemSize).sum

/-- Little-endian 16-bit read of the first two bytes of `l`. -/
def leU16 (l : List Nat) : Nat :=
  l.getD 0 0 + 256 * l.getD 1 0

/-- Little-endian 32-bit read of the first four bytes of `l`. -/
def leU32 (l : List Nat) : Nat :=
  l.getD 0 0 + 256 * l.getD 1 0 + 65536 * l.getD 2 0 + 16777216 * l.getD 3 0

/-- Two's-complement interpretation of a 16-bit word (`struct` format `h`). -/
def toSigned16 (n : Nat) : ℤ :=
  if n < 32768 then (n : ℤ) else (n : ℤ) - 65536

/-- Sequentially read the values of a format from a buffer (the buffer's
length has already been checked against `fmtSize`). Pad bytes produce no
value, mirroring `struct.unpack`. -/
def unpackGo : List FmtItem → List Nat → List RawVal
  | [], _ => []
  | .u8 :: fs, l => .int (l.getD 0 0) :: unpackGo fs (l.drop 1)
  | .u16 :: fs, l => .int (leU16 l) :: unpackGo fs (l.drop 2)
  | .i16 :: fs, l => .int (toSigned16 (leU16 l)) :: unpackGo fs (l.drop 2)
  | .u32 :: fs, l => .int (leU32 l) :: unpackGo fs (l.drop 4)
  | .pad :: fs, l => unpackGo fs (l.drop 1)
  | .bstr n :: fs, l => .bytes (l.take n) :: unpackGo fs (l.drop n)

/-- `struct.unpack(fmt, buf)`: raises `struct.error` iff the buffer length
differs from `calcsize(fmt)`, else returns the tuple of values. -/
def structUnpack (fmt : List FmtItem) (l : List Nat) : Except PyError (List RawVal) :=
  if l.length = fmtSize fmt then .ok (unpackGo fmt l) else .error .structError

/-- Lower-case hex digit character, as used by Python's `'{:02x}'.format`. -/
def hexChar (n : Nat) : Char :=
  if n < 10 then Char.ofNat (48 + n) else Char.ofNat (87 + n)

/-- Minimal-length lower-case hex rendering of a natural number
(`'{:x}'.format`), most significant digit first; `0` renders as `"0"`. -/
def hexDigits (n : Nat) : List Char :=
  if n < 16 then [hexChar n] else hexDigits (n / 16) ++ [hexChar (n % 16)]
termination_by n
decreasing_by exact Nat.div_lt_self (by omega) (by omega)

/-- Python `'{:02x}'.format(n)`: the minimal hex rendering, left-padded with
`'0'` to at least two characters. -/
def format02x (n : Nat) : List Char :=
  let d := hexDigits n
  if d.length < 2 then List.replicate (2 - d.length) '0' ++ d else d

/-- Lines 120–121 of the source: format the version word as `'{:02x}'` hex
text `s`, then build `'V' + s[0] + '.' + s[1] + '.' + s[2]`. Indexing a
character past the end of `s` raises `IndexError`. -/
def renderVersion (v : Nat) : Except PyError String :=
  match (format02x v).get? 0, (format02x v).get? 1, (format02x v).get? 2 with
  | some c0, some c1, some c2 => .ok (String.mk ['V', c0, '.', c1, '.', c2])
  | _, _, _ => .error .indexError

/-- The protocol attribute identifiers tested by `handle_message`'s dispatch
chain. The enumeration lives in the external `M365Message` module; per the
specification (§3) it is a closed set, modelled here with one constructor per
catalogued identifier plus `unknown` for every identifier that has no catalog
entry (the `else` branch of the chain). -/
inductive Attr
  | distanceLeft
  | speed
  | distanceSinceStartup
  | tailLight
  | cruise
  | batteryInfo
  | batteryVoltage
  | batteryCurrent
  | batteryPercent
  | generalInfo
  | motorInfo
  | tripInfo
  | batteryCellVoltages
  | unknown (id : Nat)
deriving DecidableEq, Repr

/-- A parsed `Message` as consumed by `handle_message`: its attribute and raw
payload bytes (`message._attribute`, `message._payload`). -/
structure ParsedMsg where
  attr : Attr
  payload : List Nat
deriving DecidableEq, Repr

/-- Outcome of `handle_message`'s dispatch: either the `else` branch returned
early (unknown attribute: no state write, no callback), or a decoded field
map was produced and flows into the state merge and the callback. -/
inductive Outcome
  | unhandled
  | decoded (r : List (String × Value))
deriving DecidableEq, Repr

/-- The decode dispatch of `M365Delegate.handle_message` (lines 44–159):
per attribute, `struct.unpack` with the source's format string, then the
source's scale/offset/rendering transforms, producing the `result` dict in
field order. A `.error` value is an exception escaping `handle_message`
(the source has no try/except). The inner `.ok _ => .error .structError`
fallbacks are unreachable: `unpackGo` always returns one value per
non-pad item, matching the namedtuple arity. -/
def handle_message (attr : Attr) (payload : List Nat) : Except PyError Outcome :=
  match attr with
  | .distanceLeft =>
    match structUnpack [.u16] payload with
    | .ok [.int v] => .ok (.decoded [("distance_left_km", .num ((v : ℚ) / 100))])
    | .ok _ => .error .structError
    | .error e => .error e
  | .speed =>
    match structUnpack [.u16] payload with
    | .ok [.int v] => .ok (.decoded [("speed_kmh", .num ((v : ℚ) / 100))])
    | .ok _ => .error .structError
    | .error e => .error e
  | .distanceSinceStartup =>
    match structUnpack [.u16] ((payload.drop 6).take 2) with
    | .ok [.int v] => .ok (.decoded [("distance_since_startup_km", .num ((v : ℚ) / 1000))])
    | .ok _ => .error .structError
    | .error e => .error e
  | .tailLight =>
    match payload with
    | [] => .error .indexError
    | b :: _ => .ok (.decoded [("is_tail_light_on", .bool (b == 2))])
  | .cruise =>
    match payload with
    | [] => .error .indexError
    | b :: _ => .ok (.decoded [("is_cruise_on", .bool (b == 1))])
  | .batteryInfo =>
    match structUnpack [.u16, .u16, .i16, .u16, .u8, .u8] payload with
    | .ok [.int cap, .int pct, .int cur, .int volt, .int t1, .int t2] =>
      .ok (.decoded
        [("battery_capacity", .num ((cap : ℚ) / 1000)),
         ("battery_percent", .num (pct : ℚ)),
         ("battery_current", .num ((cur : ℚ) / 100)),
         ("battery_voltage", .num ((volt : ℚ) / 100)),
         ("battery_temperature_1", .num ((t1 : ℚ) - 20)),
         ("battery_temperature_2", .num ((t2 : ℚ) - 20))])
    | .ok _ => .error .structError
    | .error e => .error e
  | .batteryVoltage =>
    match structUnpack [.u16] payload with
    | .ok [.int v] => .ok (.decoded [("battery_voltage", .num ((v : ℚ) / 100))])
    | .ok _ => .error .structError
    | .error e => .error e
  | .batteryCurrent =>
    match structUnpack [.i16] payload with
    | .ok [.int v] => .ok (.decoded [("battery_current", .num ((v : ℚ) / 100))])
    | .ok _ => .error .structError
    | .error e => .error e
  | .batteryPercent =>
    match structUnpack [.u16] payload with
    | .ok [.int v] => .ok (.decoded [("battery_percent", .num (v : ℚ))])
    | .ok _ => .error .structError
    | .error e => .error e
  | .generalInfo =>
    match structUnpack [.bstr 14, .bstr 6, .u16] payload with
    | .ok [.bytes s, .bytes p, .int v] =>
      match renderVersion v.toNat with
      | .ok verStr =>
        .ok (.decoded
          [("serial", .bytesRepr s),
           ("pin", .bytesRepr p),
           ("version", .str verStr)])
      | .error e => .error e
    | .ok _ => .error .structError
    | .error e => .error e
  | .motorInfo =>
    match structUnpack
        [.u16, .u16, .u16, .u16, .u16, .u16, .u16, .u32, .i16, .i16, .i16,
         .pad, .pad, .pad, .pad, .pad, .pad, .pad, .pad] payload with
    | .ok [.int err, .int warn, .int flags, .int workmode, .int pct, .int spd,
           .int avg, .int odo, .int trip, .int up, .int temp] =>
      .ok (.decoded
        [("error", .num (err : ℚ)),
         ("warning", .num (warn : ℚ)),
         ("flags", .num (flags : ℚ)),
         ("workmode", .num (workmode : ℚ)),
         ("battery_percent", .num (pct : ℚ)),
         ("speed_kmh", .num ((spd : ℚ) / 100)),
         ("speed_average_kmh", .num ((avg : ℚ) / 100)),
         ("odometer_km", .num ((odo : ℚ) / 1000)),
         ("trip_distance_m", .num (trip : ℚ)),
         ("uptime_s", .num (up : ℚ)),
         ("frame_temperature", .num ((temp : ℚ) / 10))])
    | .ok _ => .error .structError
    | .error e => .error e
  | .tripInfo =>
    match structUnpack [.u16, .u32, .pad, .pad, .i16] payload with
    | .ok [.int up, .int trip, .int temp] =>
      .ok (.decoded
        [("uptime_s", .num (up : ℚ)),
         ("trip_distance_m", .num (trip : ℚ)),
         ("frame_temperature", .num ((temp : ℚ) / 10))])
    | .ok _ => .error .structError
    | .error e => .error e
  | .batteryCellVoltages =>
    match structUnpack
        [.u16, .u16, .u16, .u16, .u16, .u16, .u16, .u16, .u16, .u16,
         .pad, .pad, .pad, .pad, .pad, .pad, .pad] payload with
    | .ok [.int c1, .int c2, .int c3, .int c4, .int c5, .int c6, .int c7,
           .int c8, .int c9, .int c10] =>
      .ok (.decoded
        [("cell_1_voltage", .num ((c1 : ℚ) / 100)),
         ("cell_2_voltage", .num ((c2 : ℚ) / 100)),
         ("cell_3_voltage", .num ((c3 : ℚ) / 100)),
         ("cell_4_voltage", .num ((c4 : ℚ) / 100)),
         ("cell_5_voltage", .num ((c5 : ℚ) / 100)),
         ("cell_6_voltage", .num ((c6 : ℚ) / 100)),
         ("cell_7_voltage", .num ((c7 : ℚ) / 100)),
         ("cell_8_voltage", .num ((c8 : ℚ) / 100)),
         ("cell_9_voltage", .num ((c9 : ℚ) / 100)),
         ("cell_10_voltage", .num ((c10 : ℚ) / 100))])
    | .ok _ => .error .structError
    | .error e => .error e
  | .unknown _ => .ok .unhandled

example : handle_message .speed [100, 0] =
    .ok (.decoded [("speed_kmh", .num 1)]) := by
  norm_num [handle_message, structUnpack, fmtSize, itemSize, unpackGo, leU16]

example : handle_message .speed [100] = .error .structError := by
  norm_num [handle_message, structUnpack, fmtSize, itemSize]

/-- The instance `__dict__` of an `M365State` object: an insertion-ordered
association list. A fresh instance has an empty `__dict__` — the slots
declared in the `M365State` class body are *class* attributes and never
appear here unless assigned through `state.__dict__[key] = value`. -/
abbrev DState := List (String × Value)

/-- Python dict assignment `d[k] = v` on an insertion-ordered dict:
overwrite in place when the key exists, else append at the end. -/
def assign (d : DState) (k : String) (v : Value) : DState :=
  if (List.any d fun p => p.1 = k) then
    List.map (fun p => if p.1 = k then (k, v) else p) d
  else d ++ [(k, v)]

/-- Lines 162–164 of the source: write every `(key, value)` of the decoded
result into `state.__dict__`, in result order. -/
def mergeState (d : DState) (r : List (String × Value)) : DState :=
  r.foldl (fun d p => assign d p.1 p.2) d

/-- The slot names declared in the `M365State` class body (lines 202–216),
all initialized to `None` as class attributes. -/
def classSlots : List String :=
  ["speed_kmh", "speed_average_kmh", "distance_left_km", "odometer_km",
   "distance_since_startup_km", "frame_temperature", "is_light_on",
   "is_in_cruise_mode", "battery_percent", "battery_voltage",
   "battery_capacity", "battery_current", "battery_temperature_1",
   "battery_temperature_2"]

/-- Python attribute read on an `M365State` object: the instance `__dict__`
first, then the class attribute (`None`) for a declared slot, else
`AttributeError` (modelled as `none`). -/
def stateLookup (d : DState) (k : String) : Option Value :=
  match List.lookup k d with
  | some v => some v
  | none => if k ∈ classSlots then some .pyNone else none

/-- `M365State.to_json` (line 220–221): `json.dumps(self, default=lambda o:
o.__dict__, sort_keys=True, indent=4)` serializes exactly the entries of the
instance `__dict__`, sorted by key. Whitespace/indentation carries no
information (spec §6), so the document is modelled by its ordered list of
key/value entries. -/
def to_json (d : DState) : List (String × Value) :=
  List.insertionSort (fun a b => a.1 ≤ b.1) d

/-- The result of one `handle_message` call performed on a delegate whose
scooter state is `dev`: the state afterwards, the user-callback invocations
made (the pair `(message, result)` passed to the callback; empty when no
callback is registered, i.e. `hc = false`), and the escaping exception if
any. An exception escapes before the state merge and before the callback
(lines 44–168: `struct.unpack` / indexing runs first, merge and callback
last), so on an error the state is unchanged and no callback ran. -/
structure RunResult where
  dev : DState
  cbs : List (ParsedMsg × List (String × Value))
  err : Option PyError
deriving DecidableEq

/-- Big-step effect of `M365Delegate.handle_message` on the delegate. -/
def runHandleMessage (hc : Bool) (dev : DState) (m : ParsedMsg) : RunResult :=
  match handle_message m.attr m.payload with
  | .error e => ⟨dev, [], some e⟩
  | .ok .unhandled => ⟨dev, [], none⟩
  | .ok (.decoded r) =>
    ⟨mergeState dev r, if hc then [(m, r)] else [], none⟩

/-- The payload length condition under which the attribute's decode branch
runs without raising: the exact `struct.calcsize` of its format, except that
`DISTANCE_SINCE_STARTUP` unpacks the slice `payload[6:8]` (any length ≥ 8
works) and `TAIL_LIGHT`/`CRUISE` only index `payload[0]` (any length ≥ 1).
Unrecognized attributes have no expected width (the branch never unpacks). -/
def payloadLengthOk (attr : Attr) (n : Nat) : Bool :=
  match attr with
  | .distanceLeft => n == 2
  | .speed => n == 2
  | .distanceSinceStartup => 8 ≤ n
  | .tailLight => 1 ≤ n
  | .cruise => 1 ≤ n
  | .batteryInfo => n == 10
  | .batteryVoltage => n == 2
  | .batteryCurrent => n == 2
  | .batteryPercent => n == 2
  | .generalInfo => n == 22
  | .motorInfo => n == 32
  | .tripInfo => n == 10
  | .batteryCellVoltages => n == 27
  | .unknown _ => true

/-- The three classifications that `M365Message.Message.parse_from_bytes`
returns (`ParseStatus.OK` carrying the parsed message, `DISJOINTED`,
`INVALID_HEADER`), per spec §4.2. The parser itself lives in the external
`M365Message` module, so the reassembly engine is modelled over an abstract
`parse` function producing this classification. -/
inductive ParseResult
  | ok (m : ParsedMsg)
  | disjointed
  | invalidHeader
deriving DecidableEq, Repr

/-- The delegate's observable state: the pending fragment collection
(`self.disjointed_messages`), the scooter state's instance `__dict__`, plus
two instrumentation logs — the messages passed to `handle_message`
("emitted" messages) and the user-callback invocations — recording the
outward-visible events in order. -/
structure EngState where
  frags : List (List Nat)
  dev : DState
  emitted : List ParsedMsg
  cbs : List (ParsedMsg × List (String × Value))
deriving DecidableEq

/-- The reassembly scan of lines 187–197:

```
for i, prev_data in enumerate(self.disjointed_messages):
    combined_data = prev_data + data
    parse_status, message = parse_from_bytes(combined_data)
    if parse_status == OK:
        self.handle_message(message)
        del self.disjointed_messages[i]
```

CPython list-iterator semantics: the iterator holds a position that advances
once per yield, and the enumerate counter `i` always equals the position of
the yielded element in the *current* list, so `del …[i]` removes exactly the
element just examined — and the element that slid into its place (the one
immediately following the match) is skipped by the next advance. The scan
therefore recurses on the tail, keeping the examined-and-kept elements in
`kept`, and after a successful match drops the matched element and skips the
next one. If `handle_message` raises, the exception escapes before the
`del`, leaving the matched fragment in place and aborting the scan. -/
def scanFrags (parse : List Nat → ParseResult) (hc : Bool) (data : List Nat) :
    List (List Nat) → List (List Nat) → DState →
    List ParsedMsg → List (ParsedMsg × List (String × Value)) →
    EngState × Option PyError
  | [], kept, dev, em, cbs => (⟨kept, dev, em, cbs⟩, none)
  | f :: rest, kept, dev, em, cbs =>
    match parse (f ++ data) with
    | .ok m =>
      let r := runHandleMessage hc dev m
      match r.err with
      | some e => (⟨kept ++ f :: rest, r.dev, em ++ [m], cbs ++ r.cbs⟩, some e)
      | none =>
        match rest with
        | [] => (⟨kept, r.dev, em ++ [m], cbs ++ r.cbs⟩, none)
        | g :: rest2 =>
          scanFrags parse hc data rest2 (kept ++ [g]) r.dev (em ++ [m]) (cbs ++ r.cbs)
    | _ => scanFrags parse hc data rest (kept ++ [f]) dev em cbs

/-- `M365Delegate.handleNotification` (lines 172–197): ignore empty
deliveries; on `OK` decode the message; on `DISJOINTED` append the buffer to
the pending fragments; on `INVALID_HEADER` run the reassembly scan. -/
def handleNotification (parse : List Nat → ParseResult) (hc : Bool)
    (s : EngState) (data : List Nat) : EngState × Option PyError :=
  if data = [] then (s, none)
  else
    match parse data with
    | .ok m =>
      let r := runHandleMessage hc s.dev m
      (⟨s.frags, r.dev, s.emitted ++ [m], s.cbs ++ r.cbs⟩, r.err)
    | .disjointed => ({ s with frags := s.frags ++ [data] }, none)
    | .invalidHeader => scanFrags parse hc data s.frags [] s.dev s.emitted s.cbs

/-- A whole session's worth of decoded messages applied to the scooter state
in order (each message's decode effect on `state.__dict__`; a message whose
decode raises leaves the state unchanged, as the exception escapes before
the merge). -/
def processAll (hc : Bool) (msgs : List ParsedMsg) (d : DState) : DState :=
  msgs.foldl (fun d m => (runHandleMessage hc d m).dev) d

/-! ## Claim C6 — unknown attributes are skipped entirely -/

/-- **C6.** For every `Message` whose attribute identifier has no catalog
entry, decoding is skipped entirely: the `else` branch of the dispatch chain
returns before the state-merge and callback lines, so the scooter state is
unchanged, the user callback is not invoked, and no exception is raised. -/
theorem c6_unknown_attribute_skipped (hc : Bool) (dev : DState) (id : Nat)
    (p : List Nat) :
    runHandleMessage hc dev ⟨.unknown id, p⟩ = ⟨dev, [], none⟩ := rfl

/-! ## Claim C7 — InvalidHeader with no pending fragments is a no-op -/

/-- **C7.** A nonempty buffer classified `INVALID_HEADER` arriving while the
pending-fragment collection is empty changes nothing: the reassembly scan
over an empty collection emits no `Message`, invokes no callback, leaves the
device state unchanged, keeps the fragment collection empty, and raises
nothing — the buffer is silently discarded. -/
theorem c7_invalid_header_no_fragments (parse : List Nat → ParseResult)
    (hc : Bool) (s : EngState) (data : List Nat)
    (hne : data ≠ []) (hih : parse data = .invalidHeader)
    (hfr : s.frags = []) :
    handleNotification parse hc s data = (s, none) := by
  cases s with
  | mk frags dev em cbs =>
    simp only at hfr
    subst hfr
    unfold handleNotification
    rw [if_neg hne, hih]
    rfl

/-- Witness for C7 at a concrete parser, engine state and buffer. -/
theorem c7_invalid_header_no_fragments_witness :
    handleNotification (fun _ => .invalidHeader) true ⟨[], [], [], []⟩ [9] =
      (⟨[], [], [], []⟩, none) :=
  c7_invalid_header_no_fragments (fun _ => .invalidHeader) true
    ⟨[], [], [], []⟩ [9] (by simp) rfl rfl

/-! ## Claim C2 — payload-width mismatch handling -/

/-- **C2 counterexample.** The claim states that no exception escapes the
decode boundary on a payload-width mismatch. In the source,
`handle_message` wraps nothing in try/except: `struct.unpack('<H', payload)`
on a 1-byte `SPEED` payload raises `struct.error`, and the exception escapes
`handle_message` (before any state merge or callback). -/
theorem c2_exception_escapes_counterexample :
    runHandleMessage true [] ⟨.speed, [100]⟩ = ⟨[], [], some .structError⟩ := rfl

/-- **C2 as amended.** On every payload-width mismatch, decoding is
abandoned by an *uncaught* exception (`struct.error`, or `IndexError` for the
single-byte attributes) that escapes the decode boundary to the caller; the
exception is raised before the merge and callback lines, so no partial field
map is merged into the device state and the user callback is not invoked. -/
theorem c2_mismatch_aborts_before_merge (hc : Bool) (dev : DState)
    (attr : Attr) (p : List Nat)
    (hmis : payloadLengthOk attr p.length = false) :
    ∃ e, runHandleMessage hc dev ⟨attr, p⟩ = ⟨dev, [], some e⟩ := by
  cases attr with
  | distanceLeft =>
    simp only [payloadLengthOk, beq_eq_false_iff_ne] at hmis
    exact ⟨.structError, by
      simp [runHandleMessage, handle_message, structUnpack, fmtSize, itemSize, hmis]⟩
  | speed =>
    simp only [payloadLengthOk, beq_eq_false_iff_ne] at hmis
    exact ⟨.structError, by
      simp [runHandleMessage, handle_message, structUnpack, fmtSize, itemSize, hmis]⟩
  | distanceSinceStartup =>
    simp only [payloadLengthOk, decide_eq_false_iff_not] at hmis
    have hlen : ¬ (2 ⊓ (p.length - 6) = 2) := by omega
    exact ⟨.structError, by
      simp [runHandleMessage, handle_message, structUnpack, fmtSize, itemSize, hlen]⟩
  | tailLight =>
    simp only [payloadLengthOk, decide_eq_false_iff_not] at hmis
    have hp : p = [] := by
      cases p with
      | nil => rfl
      | cons a l => simp at hmis
    subst hp
    exact ⟨.indexError, rfl⟩
  | cruise =>
    simp only [payloadLengthOk, decide_eq_false_iff_not] at hmis
    have hp : p = [] := by
      cases p with
      | nil => rfl
      | cons a l => simp at hmis
    subst hp
    exact ⟨.indexError, rfl⟩
  | batteryInfo =>
    simp only [payloadLengthOk, beq_eq_false_iff_ne] at hmis
    exact ⟨.structError, by
      simp [runHandleMessage, handle_message, structUnpack, fmtSize, itemSize, hmis]⟩
  | batteryVoltage =>
    simp only [payloadLengthOk, beq_eq_false_iff_ne] at hmis
    exact ⟨.structError, by
      simp [runHandleMessage, handle_message, structUnpack, fmtSize, itemSize, hmis]⟩
  | batteryCurrent =>
    simp only [payloadLengthOk, beq_eq_false_iff_ne] at hmis
    exact ⟨.structError, by
      simp [runHandleMessage, handle_message, structUnpack, fmtSize, itemSize, hmis]⟩
  | batteryPercent =>
    simp only [payloadLengthOk, beq_eq_false_iff_ne] at hmis
    exact ⟨.structError, by
      simp [runHandleMessage, handle_message, structUnpack, fmtSize, itemSize, hmis]⟩
  | generalInfo =>
    simp only [payloadLengthOk, beq_eq_false_iff_ne] at hmis
    exact ⟨.structError, by
      simp [runHandleMessage, handle_message, structUnpack, fmtSize, itemSize, hmis]⟩
  | motorInfo =>
    simp only [payloadLengthOk, beq_eq_false_iff_ne] at hmis
    exact ⟨.structError, by
      simp [runHandleMessage, handle_message, structUnpack, fmtSize, itemSize, hmis]⟩
  | tripInfo =>
    simp only [payloadLengthOk, beq_eq_false_iff_ne] at hmis
    exact ⟨.structError, by
      simp [runHandleMessage, handle_message, structUnpack, fmtSize, itemSize, hmis]⟩
  | batteryCellVoltages =>
    simp only [payloadLengthOk, beq_eq_false_iff_ne] at hmis
    exact ⟨.structError, by
      simp [runHandleMessage, handle_message, structUnpack, fmtSize, itemSize, hmis]⟩
  | unknown id => simp [payloadLengthOk] at hmis

/-- Witness for C2-as-amended at a concrete mismatched payload. -/
theorem c2_mismatch_aborts_before_merge_witness :
    payloadLengthOk .speed ([100] : List Nat).length = false ∧
    ∃ e, runHandleMessage true [] ⟨.speed, [100]⟩ = ⟨[], [], some e⟩ :=
  ⟨rfl, c2_mismatch_aborts_before_merge true [] .speed [100] rfl⟩

/-! ## Hex rendering of the version word (`'{:02x}'.format`) -/

/-- `hexDigits` is never empty. -/
theorem hexDigits_length_pos (n : Nat) : 1 ≤ (hexDigits n).length := by
  rw [hexDigits]
  split <;> simp

/-- One hex digit below 16. -/
theorem hexDigits_length_of_lt (n : Nat) (h : n < 16) :
    (hexDigits n).length = 1 := by
  rw [hexDigits, if_pos h]
  rfl

/-- At most two hex digits below 256. -/
theorem hexDigits_length_le_two (n : Nat) (h : n < 256) :
    (hexDigits n).length ≤ 2 := by
  rw [hexDigits]
  split
  · simp
  · have h2 : n / 16 < 16 := by omega
    simp [hexDigits_length_of_lt _ h2]

/-- At least three hex digits from 256 on. -/
theorem hexDigits_length_ge_three (n : Nat) (h : 256 ≤ n) :
    3 ≤ (hexDigits n).length := by
  rw [hexDigits, if_neg (by omega)]
  rw [hexDigits, if_neg (show ¬ n / 16 < 16 by omega)]
  have hp := hexDigits_length_pos (n / 16 / 16)
  simp only [List.length_append, List.length_cons, List.length_nil]
  omega

/-- `'{:02x}'` of a word below 0x100 is exactly two characters. -/
theorem format02x_length_of_lt (n : Nat) (h : n < 256) :
    (format02x n).length = 2 := by
  have h1 := hexDigits_length_pos n
  have h2 := hexDigits_length_le_two n h
  simp only [format02x]
  split
  · simp only [List.length_append, List.length_replicate]
    omega
  · omega

/-- `'{:02x}'` of a word of 0x100 or more keeps all (≥ 3) hex digits. -/
theorem format02x_length_of_ge (n : Nat) (h : 256 ≤ n) :
    3 ≤ (format02x n).length := by
  have h3 := hexDigits_length_ge_three n h
  simp only [format02x]
  split
  · next hlt => exact absurd hlt (by omega)
  · exact h3

/-- For a version word below 0x100 the hex text has two characters, so the
index `[2]` on line 121 is out of range: `IndexError`. -/
theorem renderVersion_of_lt (v : Nat) (h : v < 256) :
    renderVersion v = .error .indexError := by
  have h2 : (format02x v).get? 2 = none := by
    rw [List.get?_eq_none]
    rw [format02x_length_of_lt v h]
  unfold renderVersion
  rw [h2]
  cases (format02x v).get? 0 <;> cases (format02x v).get? 1 <;> rfl

/-- For a version word of 0x100 or more all three indexed characters exist,
and line 121 completes. -/
theorem renderVersion_of_ge (v : Nat) (h : 256 ≤ v) :
    ∃ c0 c1 c2, renderVersion v = .ok (String.mk ['V', c0, '.', c1, '.', c2]) := by
  have h3 := format02x_length_of_ge v h
  have e0 : (format02x v).get? 0 = some ((format02x v).get ⟨0, by omega⟩) :=
    List.get?_eq_get (by omega)
  have e1 : (format02x v).get? 1 = some ((format02x v).get ⟨1, by omega⟩) :=
    List.get?_eq_get (by omega)
  have e2 : (format02x v).get? 2 = some ((format02x v).get ⟨2, by omega⟩) :=
    List.get?_eq_get (by omega)
  refine ⟨(format02x v).get ⟨0, by omega⟩, (format02x v).get ⟨1, by omega⟩,
    (format02x v).get ⟨2, by omega⟩, ?_⟩
  unfold renderVersion
  rw [e0, e1, e2]

/-- Concrete evaluation: `'{:02x}'.format(0x0801)` is `"801"`. -/
theorem format02x_2049 : format02x 2049 = ['8', '0', '1'] := by
  rw [format02x]
  rw [hexDigits, hexDigits, hexDigits]
  norm_num [hexChar]

/-- Concrete evaluation of lines 120–121 at version word 0x0801: the three
characters of `"801"` render as `"V8.0.1"`. -/
theorem renderVersion_2049 : renderVersion 2049 = .ok "V8.0.1" := by
  unfold renderVersion
  rw [format02x_2049]
  rfl

/-- Evaluation of the `GENERAL_INFO` branch on a 22-byte payload: unpack
`'<14s6sH'`, render serial and pin with `str`, and render the version word
(the little-endian u16 at offset 20). -/
theorem handle_generalInfo_eq (p : List Nat) (hlen : p.length = 22) :
    handle_message .generalInfo p =
      match renderVersion (leU16 (p.drop 20)) with
      | .ok verStr => .ok (.decoded
          [("serial", .bytesRepr (p.take 14)),
           ("pin", .bytesRepr ((p.drop 14).take 6)),
           ("version", .str verStr)])
      | .error e => .error e := by
  have hsz : p.length = fmtSize [FmtItem.bstr 14, FmtItem.bstr 6, FmtItem.u16] := by
    simp [fmtSize, itemSize, hlen]
  unfold handle_message structUnpack
  rw [if_pos hsz]
  simp only [unpackGo, List.drop_drop]
  norm_num [Int.toNat_natCast]

/-! ## Claim C3 — GeneralInfo version rendering at word 0x0801 -/

/-- The example `GENERAL_INFO` payload shown in the source comment (line
113) — 14 serial bytes, 6 pin bytes — with its version word replaced by
little-endian `0x0801` (bytes `01 08`). -/
def generalInfoPayload : List Nat :=
  [0x31, 0x36, 0x31, 0x33, 0x32, 0x2f, 0x30, 0x30, 0x30, 0x39, 0x35, 0x32,
   0x39, 0x32, 0x30, 0x30, 0x30, 0x30, 0x30, 0x30, 0x01, 0x08]

/-- **C3 counterexample.** The claim expects version word `0x0801` to decode
to `"V0.8.1"`. The code formats the word with `'{:02x}'`, giving the
three-character string `"801"`, and renders `'V'+s[0]+'.'+s[1]+'.'+s[2]` —
which is `"V8.0.1"`, not `"V0.8.1"`. -/
theorem c3_version_0801_counterexample :
    List.lookup "version"
      (match handle_message .generalInfo generalInfoPayload with
       | .ok (.decoded r) => r
       | _ => []) = some (.str "V8.0.1") ∧
    ("V8.0.1" : String) ≠ "V0.8.1" := by
  constructor
  · rw [handle_generalInfo_eq generalInfoPayload (by rfl)]
    rw [show leU16 (generalInfoPayload.drop 20) = 2049 from by decide]
    rw [renderVersion_2049]
    rfl
  · decide

/-- **C3 as amended.** Decoding a `GeneralInfo` message whose little-endian
version word unpacks to 0x0801 yields `version == "V8.0.1"`: the version u16
is rendered as `V{d0}.{d1}.{d2}` from the three characters of its
minimal-width `'{:02x}'` hex text (`"801"` for 0x0801). -/
theorem c3_version_0801_renders_v801 (p : List Nat) (hlen : p.length = 22)
    (hv : leU16 (p.drop 20) = 0x0801) :
    handle_message .generalInfo p = .ok (.decoded
      [("serial", .bytesRepr (p.take 14)),
       ("pin", .bytesRepr ((p.drop 14).take 6)),
       ("version", .str "V8.0.1")]) := by
  rw [handle_generalInfo_eq p hlen, hv]
  rw [show (0x0801 : Nat) = 2049 from rfl, renderVersion_2049]

/-- Witness for C3-as-amended at the concrete payload. -/
theorem c3_version_0801_renders_v801_witness :
    handle_message .generalInfo generalInfoPayload = .ok (.decoded
      [("serial", .bytesRepr (generalInfoPayload.take 14)),
       ("pin", .bytesRepr ((generalInfoPayload.drop 14).take 6)),
       ("version", .str "V8.0.1")]) :=
  c3_version_0801_renders_v801 generalInfoPayload (by rfl) (by decide)

/-! ## Claim C9 — GeneralInfo decoding raises IndexError for small version words -/

/-- **C9.** For every 22-byte `GeneralInfo` payload: if the little-endian
version word (offset 20) is at most 0x00ff, the `'{:02x}'` text has exactly
two characters and indexing its third (`[2]`, line 121) raises `IndexError`
— the exception escapes before the merge and callback, so no field map is
produced and the state is untouched; if the word is 0x0100 or greater, all
three indexed characters exist and decoding completes without an exception.
GeneralInfo decoding therefore only completes for version words ≥ 0x0100. -/
theorem c9_small_version_word_raises (hc : Bool) (dev : DState) (p : List Nat)
    (hlen : p.length = 22) :
    (leU16 (p.drop 20) ≤ 0xff →
      runHandleMessage hc dev ⟨.generalInfo, p⟩ = ⟨dev, [], some .indexError⟩) ∧
    (0x100 ≤ leU16 (p.drop 20) →
      (runHandleMessage hc dev ⟨.generalInfo, p⟩).err = none) := by
  constructor
  · intro h
    simp only [runHandleMessage]
    rw [handle_generalInfo_eq p hlen]
    rw [renderVersion_of_lt (leU16 (p.drop 20)) (by omega)]
  · intro h
    obtain ⟨c0, c1, c2, hr⟩ := renderVersion_of_ge (leU16 (p.drop 20)) h
    simp only [runHandleMessage]
    rw [handle_generalInfo_eq p hlen]
    rw [hr]

/-- Witness for C9: a payload whose version word is 0x0001 raises
`IndexError`, and one whose word is 0x0801 decodes without an exception. -/
theorem c9_small_version_word_raises_witness :
    runHandleMessage true [] ⟨.generalInfo,
        [0x31, 0x36, 0x31, 0x33, 0x32, 0x2f, 0x30, 0x30, 0x30, 0x39, 0x35,
         0x32, 0x39, 0x32, 0x30, 0x30, 0x30, 0x30, 0x30, 0x30, 0x01, 0x00]⟩ =
      ⟨[], [], some .indexError⟩ ∧
    (runHandleMessage true [] ⟨.generalInfo, generalInfoPayload⟩).err = none :=
  ⟨(c9_small_version_word_raises true []
      [0x31, 0x36, 0x31, 0x33, 0x32, 0x2f, 0x30, 0x30, 0x30, 0x39, 0x35,
       0x32, 0x39, 0x32, 0x30, 0x30, 0x30, 0x30, 0x30, 0x30, 0x01, 0x00]
      (by rfl)).1 (by decide),
   (c9_small_version_word_raises true [] generalInfoPayload (by rfl)).2 (by decide)⟩

/-! ## Claim C4 — TripInfo payload layout -/

/-- Decoder following the *claim's* stated layout for TripInfo, for
comparison with the source: `uptime_s` u16 at offset 0, then 2 skipped
bytes, then `trip_distance_m` u32, then 2 skipped bytes, then
`frame_temperature` i16 scaled by ÷10 (struct format `'<HxxIxxh'`,
12 bytes). -/
def tripInfoSpecLayout (payload : List Nat) : Except PyError Outcome :=
  match structUnpack [.u16, .pad, .pad, .u32, .pad, .pad, .i16] payload with
  | .ok [.int up, .int trip, .int temp] =>
    .ok (.decoded
      [("uptime_s", .num (up : ℚ)),
       ("trip_distance_m", .num (trip : ℚ)),
       ("frame_temperature", .num ((temp : ℚ) / 10))])
  | .ok _ => .error .structError
  | .error e => .error e

/-- The example `TRIP_INFO` payload shown in the source comment (line 136):
10 bytes. -/
def tripInfoPayload : List Nat := [0xec, 0, 0, 0, 0, 0, 0, 0, 0xe6, 0]

/-- **C4 counterexample.** The source decodes TripInfo with
`struct.unpack('<HIxxh', payload)` — a 10-byte layout whose two skipped
bytes sit *between* `trip_distance_m` and `frame_temperature` — so the
source's own 10-byte example payload decodes fine, while the claim's layout
(skip between `uptime_s` and `trip_distance_m`, 12 bytes in total) rejects
it with `struct.error`. -/
theorem c4_trip_layout_counterexample :
    handle_message .tripInfo tripInfoPayload = .ok (.decoded
      [("uptime_s", .num 236),
       ("trip_distance_m", .num 0),
       ("frame_temperature", .num 23)]) ∧
    tripInfoSpecLayout tripInfoPayload = .error .structError := by
  constructor
  · norm_num [handle_message, structUnpack, fmtSize, itemSize, unpackGo,
      leU16, leU32, toSigned16, tripInfoPayload]
  · rfl

/-- **C4 as amended.** For every TripInfo message the payload is decoded
with the layout `'<HIxxh'`: `uptime_s` as u16 at byte offset 0, then
`trip_distance_m` as u32 at offset 2, then 2 skipped bytes, then
`frame_temperature` as i16 at offset 8 scaled by ÷10 (all little-endian;
10 bytes in total). -/
theorem c4_trip_layout (p : List Nat) (hlen : p.length = 10) :
    handle_message .tripInfo p = .ok (.decoded
      [("uptime_s", .num (leU16 p : ℚ)),
       ("trip_distance_m", .num (leU32 (p.drop 2) : ℚ)),
       ("frame_temperature", .num ((toSigned16 (leU16 (p.drop 8)) : ℚ) / 10))]) := by
  have hsz : p.length = fmtSize [FmtItem.u16, FmtItem.u32, FmtItem.pad, FmtItem.pad,
      FmtItem.i16] := by simp [fmtSize, itemSize, hlen]
  unfold handle_message structUnpack
  rw [if_pos hsz]
  simp only [unpackGo, List.drop_drop]
  norm_num

/-- Witness for C4-as-amended at the source's example payload. -/
theorem c4_trip_layout_witness :
    handle_message .tripInfo tripInfoPayload = .ok (.decoded
      [("uptime_s", .num (leU16 tripInfoPayload : ℚ)),
       ("trip_distance_m", .num (leU32 (tripInfoPayload.drop 2) : ℚ)),
       ("frame_temperature",
        .num ((toSigned16 (leU16 (tripInfoPayload.drop 8)) : ℚ) / 10))]) :=
  c4_trip_layout tripInfoPayload (by rfl)

/-! ## Claim C5 — BatteryCellVoltages cell scaling -/

/-- The example `BATTERY_CELL_VOLTAGES` payload shown in the source comment
(line 146): ten little-endian cell words followed by 7 trailing bytes;
the first cell word is `0x102d`. -/
def cellVoltagesPayload : List Nat :=
  [0x2d, 0x10, 0x2e, 0x10, 0x1d, 0x10, 0x2f, 0x10, 0x34, 0x10, 0x34, 0x10,
   0x3a, 0x10, 0x3a, 0x10, 0x2e, 0x10, 0x2f, 0x10, 0, 0, 0, 0, 0, 0, 0]

/-- **C5 counterexample.** The claim expects cell word `0x102d` to decode to
`cell_1_voltage == 41.65`. `0x102d = 4141`, and the code divides by 100:
the decoded value is `41.41`, not `41.65` (the claim's own parenthetical
`0x102d = 4141, ÷100` contradicts its asserted result). -/
theorem c5_cell1_counterexample :
    List.lookup "cell_1_voltage"
      (match handle_message .batteryCellVoltages cellVoltagesPayload with
       | .ok (.decoded r) => r
       | _ => []) = some (.num 41.41) ∧
    (41.41 : ℚ) ≠ 41.65 := by
  constructor
  · norm_num [handle_message, structUnpack, fmtSize, itemSize, unpackGo,
      leU16, cellVoltagesPayload, List.lookup]
  · norm_num

/-- **C5 as amended.** For every `BatteryCellVoltages` message whose first
little-endian cell word is 0x102d, decoding yields
`cell_1_voltage == 41.41` (each cell word is divided by 100;
0x102d = 4141, and 4141 ÷ 100 = 41.41). -/
theorem c5_cell1_scaling (p : List Nat) (hlen : p.length = 27)
    (hc1 : leU16 p = 0x102d) :
    ∃ r, handle_message .batteryCellVoltages p = .ok (.decoded r) ∧
      List.lookup "cell_1_voltage" r = some (.num 41.41) := by
  have hsz : p.length = fmtSize [FmtItem.u16, FmtItem.u16, FmtItem.u16,
      FmtItem.u16, FmtItem.u16, FmtItem.u16, FmtItem.u16, FmtItem.u16,
      FmtItem.u16, FmtItem.u16, FmtItem.pad, FmtItem.pad, FmtItem.pad,
      FmtItem.pad, FmtItem.pad, FmtItem.pad, FmtItem.pad] := by
    simp [fmtSize, itemSize, hlen]
  unfold handle_message structUnpack
  rw [if_pos hsz]
  simp only [unpackGo, List.drop_drop]
  refine ⟨_, rfl, ?_⟩
  simp only [List.lookup]
  rw [hc1]
  norm_num

/-- Witness for C5-as-amended at the source's example payload. -/
theorem c5_cell1_scaling_witness :
    ∃ r, handle_message .batteryCellVoltages cellVoltagesPayload =
        .ok (.decoded r) ∧
      List.lookup "cell_1_voltage" r = some (.num 41.41) :=
  c5_cell1_scaling cellVoltagesPayload (by rfl) (by decide)

/-! ## Claim C8 — Device State serialization -/

/-- Keys-are-totally-ordered instance for sorting state entries by key. -/
instance : IsTotal (String × Value) (fun a b => a.1 ≤ b.1) :=
  ⟨fun a b => le_total a.1 b.1⟩

/-- Key order is transitive on state entries. -/
instance : IsTrans (String × Value) (fun a b => a.1 ≤ b.1) :=
  ⟨fun _ _ _ h1 h2 => le_trans h1 h2⟩

/-- **C8 counterexample.** The claim says the serialized document has one
entry per known field, with never-populated slots appearing as "unknown".
But the declared slots of `M365State` are *class* attributes: a fresh
instance has an empty `__dict__`, and `json.dumps(self, default=lambda o:
o.__dict__, ...)` serializes only the instance `__dict__` — so a fresh
state serializes with no entries at all, and in particular the known field
`speed_kmh` is absent rather than rendered as unknown. -/
theorem c8_fresh_state_serializes_empty :
    "speed_kmh" ∈ classSlots ∧
    to_json ([] : DState) = [] ∧
    List.lookup "speed_kmh" (to_json ([] : DState)) = none := by
  refine ⟨by decide, rfl, rfl⟩

/-- **C8 as amended.** Serializing the Device State snapshot produces a flat
document whose entries are exactly the *populated* (dynamically assigned)
fields — a permutation of the instance dict — in sorted (hence stable and
deterministic) key order; slots never populated by a merge are omitted, and
a fresh state serializes with no entries. -/
theorem c8_to_json_sorted_populated_entries (d : DState) :
    List.Perm (to_json d) d ∧
    List.Sorted (fun a b => a.1 ≤ b.1) (to_json d) ∧
    to_json ([] : DState) = [] := by
  exact ⟨List.perm_insertionSort _ d, List.sorted_insertionSort _ d, rfl⟩

/-! ## Claim C10 — the declared slots is_light_on / is_in_cruise_mode -/

/-- Dict assignment introduces no key other than the assigned one. -/
theorem assign_keys {d : DState} {k k2 : String} {v : Value}
    (h : k2 ∈ (assign d k v).map Prod.fst) :
    k2 = k ∨ k2 ∈ d.map Prod.fst := by
  unfold assign at h
  split at h
  · rw [List.map_map, List.mem_map] at h
    obtain ⟨p, hp, hpe⟩ := h
    by_cases hk : p.1 = k
    · left
      simp only [Function.comp, if_pos hk] at hpe
      exact hpe.symm
    · right
      simp only [Function.comp, if_neg hk] at hpe
      exact hpe ▸ List.mem_map_of_mem Prod.fst hp
  · rw [List.map_append, List.mem_append] at h
    rcases h with h | h
    · right
      exact h
    · left
      simpa using h

/-- A state merge introduces no key beyond the merged result's keys. -/
theorem mergeState_keys {k2 : String} :
    ∀ (r : List (String × Value)) (d : DState),
      k2 ∈ (mergeState d r).map Prod.fst →
      k2 ∈ r.map Prod.fst ∨ k2 ∈ d.map Prod.fst := by
  intro r
  induction r with
  | nil => intro d h; exact .inr h
  | cons p rest ih =>
    intro d h
    have step : mergeState d (p :: rest) = mergeState (assign d p.1 p.2) rest := rfl
    rw [step] at h
    rcases ih (assign d p.1 p.2) h with h1 | h1
    · exact .inl (by simp [h1])
    · rcases assign_keys h1 with h2 | h2
      · exact .inl (by simp [h2])
      · exact .inr h2

/-- No decode branch ever produces the keys `is_light_on` or
`is_in_cruise_mode`: the tail-light and cruise branches store their results
under `is_tail_light_on` and `is_cruise_on`. -/
theorem handle_message_result_keys (attr : Attr) (p : List Nat)
    (r : List (String × Value))
    (h : handle_message attr p = .ok (.decoded r)) :
    "is_light_on" ∉ r.map Prod.fst ∧ "is_in_cruise_mode" ∉ r.map Prod.fst := by
  cases attr <;> simp only [handle_message] at h <;> (repeat' split at h) <;>
    cases h <;> (constructor <;> (simp only [List.map_cons, List.map_nil]; decide))

/-- One decode step never introduces the `is_light_on` /
`is_in_cruise_mode` keys into the instance dict. -/
theorem runHandleMessage_keys (hc : Bool) (dev : DState) (m : ParsedMsg)
    (h1 : "is_light_on" ∉ dev.map Prod.fst)
    (h2 : "is_in_cruise_mode" ∉ dev.map Prod.fst) :
    "is_light_on" ∉ (runHandleMessage hc dev m).dev.map Prod.fst ∧
    "is_in_cruise_mode" ∉ (runHandleMessage hc dev m).dev.map Prod.fst := by
  unfold runHandleMessage
  cases hm : handle_message m.attr m.payload with
  | error e => exact ⟨h1, h2⟩
  | ok o =>
    cases o with
    | unhandled => exact ⟨h1, h2⟩
    | decoded r =>
      have hk := handle_message_result_keys m.attr m.payload r hm
      constructor <;> intro hmem
      · rcases mergeState_keys r dev hmem with hmem2 | hmem2
        · exact hk.1 hmem2
        · exact h1 hmem2
      · rcases mergeState_keys r dev hmem with hmem2 | hmem2
        · exact hk.2 hmem2
        · exact h2 hmem2

/-- The invariant holds for a whole session of decoded messages. -/
theorem processAll_keys (hc : Bool) (msgs : List ParsedMsg) :
    ∀ (dev : DState),
      "is_light_on" ∉ dev.map Prod.fst →
      "is_in_cruise_mode" ∉ dev.map Prod.fst →
      "is_light_on" ∉ (processAll hc msgs dev).map Prod.fst ∧
      "is_in_cruise_mode" ∉ (processAll hc msgs dev).map Prod.fst := by
  induction msgs with
  | nil => intro dev h1 h2; exact ⟨h1, h2⟩
  | cons m rest ih =>
    intro dev h1 h2
    have step := runHandleMessage_keys hc dev m h1 h2
    exact ih (runHandleMessage hc dev m).dev step.1 step.2

/-- `List.lookup` misses keys that are not in the dict. -/
theorem lookup_eq_none_of_key_not_mem {k : String} :
    ∀ {d : DState}, k ∉ d.map Prod.fst → List.lookup k d = none := by
  intro d
  induction d with
  | nil => intro _; rfl
  | cons p rest ih =>
    intro h
    simp only [List.map_cons, List.mem_cons, not_or] at h
    have hb : (k == p.1) = false := by simpa using h.1
    rw [List.lookup_cons, hb]
    exact ih h.2

/-- **C10.** The declared `M365State` slots `is_light_on` and
`is_in_cruise_mode` are never assigned by any decode path: the tail-light
and cruise branches store their results under the distinct dynamic keys
`is_tail_light_on` and `is_cruise_on`, so after any session of decoded
messages (starting from the fresh, empty instance dict) an attribute read
of either declared slot still falls through to the class attribute and
yields its initial `None`. -/
theorem c10_light_cruise_slots_stay_none (hc : Bool) (msgs : List ParsedMsg) :
    stateLookup (processAll hc msgs []) "is_light_on" = some .pyNone ∧
    stateLookup (processAll hc msgs []) "is_in_cruise_mode" = some .pyNone ∧
    handle_message .tailLight [2] =
      .ok (.decoded [("is_tail_light_on", .bool true)]) ∧
    handle_message .cruise [1] =
      .ok (.decoded [("is_cruise_on", .bool true)]) := by
  have hkeys := processAll_keys hc msgs [] (by simp) (by simp)
  refine ⟨?_, ?_, rfl, rfl⟩
  · unfold stateLookup
    rw [lookup_eq_none_of_key_not_mem hkeys.1]
    rfl
  · unfold stateLookup
    rw [lookup_eq_none_of_key_not_mem hkeys.2]
    rfl

/-! ## Claim C1 — the reassembly scan after a successful concatenation -/

/-- The reassembly scan only appends to the emitted-messages log. -/
theorem scanFrags_emitted (parse : List Nat → ParseResult) (hc : Bool)
    (data : List Nat) (l kept : List (List Nat)) (dev : DState)
    (em : List ParsedMsg) (cbs : List (ParsedMsg × List (String × Value))) :
    ∃ t, (scanFrags parse hc data l kept dev em cbs).1.emitted = em ++ t := by
  induction l, kept, dev, em, cbs using scanFrags.induct parse hc data with
  | case1 kept dev em cbs => exact ⟨[], by simp [scanFrags]⟩
  | case2 f rest kept dev em cbs m hp r e herr =>
    have herr2 : (runHandleMessage hc dev m).err = some e := herr
    exact ⟨[m], by simp [scanFrags, hp, herr2]⟩
  | case3 f kept dev em cbs m hp r herr =>
    have herr2 : (runHandleMessage hc dev m).err = none := herr
    exact ⟨[m], by simp [scanFrags, hp, herr2]⟩
  | case4 f kept dev em cbs m hp r herr g rest2 ih =>
    have herr2 : (runHandleMessage hc dev m).err = none := herr
    obtain ⟨t, ht⟩ := ih
    exact ⟨m :: t, by simp [scanFrags, hp, herr2, ht]⟩
  | case5 f rest kept dev em cbs hnp ih =>
    obtain ⟨t, ht⟩ := ih
    refine ⟨t, ?_⟩
    cases hpf : parse (f ++ data) with
    | ok m => exact (hnp m hpf).elim
    | disjointed => simpa [scanFrags, hpf] using ht
    | invalidHeader => simpa [scanFrags, hpf] using ht

/-- The fragments left by the reassembly scan are drawn from the examined
collection: a sublist of `kept ++ l`. -/
theorem scanFrags_frags_sublist (parse : List Nat → ParseResult) (hc : Bool)
    (data : List Nat) (l kept : List (List Nat)) (dev : DState)
    (em : List ParsedMsg) (cbs : List (ParsedMsg × List (String × Value))) :
    List.Sublist (scanFrags parse hc data l kept dev em cbs).1.frags
      (kept ++ l) := by
  induction l, kept, dev, em, cbs using scanFrags.induct parse hc data with
  | case1 kept dev em cbs => simp [scanFrags]
  | case2 f rest kept dev em cbs m hp r e herr =>
    have herr2 : (runHandleMessage hc dev m).err = some e := herr
    simp [scanFrags, hp, herr2]
  | case3 f kept dev em cbs m hp r herr =>
    have herr2 : (runHandleMessage hc dev m).err = none := herr
    simp only [scanFrags, hp, herr2]
    exact List.sublist_append_left kept [f]
  | case4 f kept dev em cbs m hp r herr g rest2 ih =>
    have herr2 : (runHandleMessage hc dev m).err = none := herr
    simp only [scanFrags, hp, herr2]
    refine ih.trans ?_
    rw [List.append_assoc]
    exact List.Sublist.append_left (List.sublist_cons_self f (g :: rest2)) kept
  | case5 f rest kept dev em cbs hnp ih =>
    cases hpf : parse (f ++ data) with
    | ok m => exact (hnp m hpf).elim
    | disjointed =>
      simp only [scanFrags, hpf]
      refine ih.trans ?_
      rw [List.append_assoc]
      exact List.Sublist.refl _
    | invalidHeader =>
      simp only [scanFrags, hpf]
      refine ih.trans ?_
      rw [List.append_assoc]
      exact List.Sublist.refl _

/-- When the scan finishes without an escaping exception, every emission
removed exactly one fragment: fragments lost = messages emitted. -/
theorem scanFrags_conservation (parse : List Nat → ParseResult) (hc : Bool)
    (data : List Nat) (l kept : List (List Nat)) (dev : DState)
    (em : List ParsedMsg) (cbs : List (ParsedMsg × List (String × Value))) :
    (scanFrags parse hc data l kept dev em cbs).2 = none →
    (scanFrags parse hc data l kept dev em cbs).1.frags.length +
      (scanFrags parse hc data l kept dev em cbs).1.emitted.length =
    (kept ++ l).length + em.length := by
  induction l, kept, dev, em, cbs using scanFrags.induct parse hc data with
  | case1 kept dev em cbs => intro _; simp [scanFrags]
  | case2 f rest kept dev em cbs m hp r e herr =>
    intro hnone
    have herr2 : (runHandleMessage hc dev m).err = some e := herr
    simp [scanFrags, hp, herr2] at hnone
  | case3 f kept dev em cbs m hp r herr =>
    intro _
    have herr2 : (runHandleMessage hc dev m).err = none := herr
    simp only [scanFrags, hp, herr2]
    simp only [List.length_append, List.length_cons, List.length_nil]
    omega
  | case4 f kept dev em cbs m hp r herr g rest2 ih =>
    intro hnone
    have herr2 : (runHandleMessage hc dev m).err = none := herr
    simp only [scanFrags, hp, herr2] at hnone ⊢
    have hrec :
        (scanFrags parse hc data rest2 (kept ++ [g]) (runHandleMessage hc dev m).dev
            (em ++ [m]) (cbs ++ (runHandleMessage hc dev m).cbs)).1.frags.length +
          (scanFrags parse hc data rest2 (kept ++ [g]) (runHandleMessage hc dev m).dev
            (em ++ [m]) (cbs ++ (runHandleMessage hc dev m).cbs)).1.emitted.length =
        ((kept ++ [g]) ++ rest2).length + (em ++ [m]).length := ih hnone
    simp only [List.length_append, List.length_cons, List.length_nil] at hrec ⊢
    omega
  | case5 f rest kept dev em cbs hnp ih =>
    intro hnone
    cases hpf : parse (f ++ data) with
    | ok m => exact (hnp m hpf).elim
    | disjointed =>
      simp only [scanFrags, hpf] at hnone ⊢
      have hrec := ih hnone
      simp only [List.length_append, List.length_cons, List.length_nil] at hrec ⊢
      omega
    | invalidHeader =>
      simp only [scanFrags, hpf] at hnone ⊢
      have hrec := ih hnone
      simp only [List.length_append, List.length_cons, List.length_nil] at hrec ⊢
      omega

/-- **C1 as amended.** When an InvalidHeader buffer arrives and concatenating
the first pending fragment with it parses as a complete `Message` whose
decode does not raise, the engine emits that message (it is the first new
entry of the emitted log) and removes that fragment (the remaining
fragments are a sublist of the rest of the collection); but the loop has no
`break`: scanning continues (past the fragment that slid into the deleted
slot), and — when no exception escapes — every further concatenation
success is also acted on, each removing exactly one fragment, so more than
one success can be acted on for the same incoming buffer. -/
theorem c1_first_match_emits_and_scan_continues
    (parse : List Nat → ParseResult) (hc : Bool) (data f : List Nat)
    (rest : List (List Nat)) (dev : DState) (em : List ParsedMsg)
    (cbs : List (ParsedMsg × List (String × Value))) (m : ParsedMsg)
    (st2 : EngState) (e : Option PyError)
    (hne : data ≠ [])
    (hih : parse data = .invalidHeader)
    (hok : parse (f ++ data) = .ok m)
    (hrun : (runHandleMessage hc dev m).err = none)
    (hres : handleNotification parse hc ⟨f :: rest, dev, em, cbs⟩ data = (st2, e)) :
    st2.emitted.get? em.length = some m ∧
    List.Sublist st2.frags rest ∧
    (e = none →
      st2.frags.length + st2.emitted.length = rest.length + em.length + 1) := by
  have hstep : handleNotification parse hc ⟨f :: rest, dev, em, cbs⟩ data =
      scanFrags parse hc data (f :: rest) [] dev em cbs := by
    unfold handleNotification
    rw [if_neg hne, hih]
  rw [hstep] at hres
  cases rest with
  | nil =>
    simp only [scanFrags, hok, hrun] at hres
    cases hres
    refine ⟨List.get?_concat_length em m, List.nil_sublist _, ?_⟩
    intro _
    simp
  | cons g rest2 =>
    simp only [scanFrags, hok, hrun, List.nil_append] at hres
    have h1 : (scanFrags parse hc data rest2 [g] (runHandleMessage hc dev m).dev
        (em ++ [m]) (cbs ++ (runHandleMessage hc dev m).cbs)).1 = st2 := by
      rw [hres]
    have h2 : (scanFrags parse hc data rest2 [g] (runHandleMessage hc dev m).dev
        (em ++ [m]) (cbs ++ (runHandleMessage hc dev m).cbs)).2 = e := by
      rw [hres]
    refine ⟨?_, ?_, ?_⟩
    · obtain ⟨t, ht⟩ := scanFrags_emitted parse hc data rest2 [g]
        (runHandleMessage hc dev m).dev (em ++ [m])
        (cbs ++ (runHandleMessage hc dev m).cbs)
      rw [← h1, ht, List.append_assoc]
      rw [List.get?_append_right (le_refl em.length)]
      simp
    · have hs := scanFrags_frags_sublist parse hc data rest2 [g]
        (runHandleMessage hc dev m).dev (em ++ [m])
        (cbs ++ (runHandleMessage hc dev m).cbs)
      rw [← h1]
      simpa using hs
    · intro he0
      have hcons := scanFrags_conservation parse hc data rest2 [g]
        (runHandleMessage hc dev m).dev (em ++ [m])
        (cbs ++ (runHandleMessage hc dev m).cbs) (by rw [h2, he0])
      rw [← h1]
      simp only [List.singleton_append, List.length_append, List.length_cons,
        List.length_nil] at hcons ⊢
      omega

/-- A concrete frame-parser instance for exercising the reassembly scan:
the lone buffer `[9]` is an invalid header, and the concatenations
`[1] ++ [9]` and `[3] ++ [9]` each parse as a complete SPEED message. -/
def cxParse : List Nat → ParseResult
  | [1, 9] => .ok ⟨.speed, [100, 0]⟩
  | [3, 9] => .ok ⟨.speed, [200, 0]⟩
  | _ => .invalidHeader

/-- **C1 counterexample.** With pending fragments `[[1], [2], [3]]` and
incoming InvalidHeader buffer `[9]`, where the first and third fragments
both concatenate into complete messages, the loop (which has no `break`)
acts on *two* concatenation successes for the one buffer: it decodes both
messages, removing both matched fragments — refuting "at most one
concatenation success is acted on" and "no further fragments are tried with
the same buffer". (The second fragment `[2]` survives untried: the
`del` during iteration slides it into the deleted slot, and the iterator
steps past it.) -/
theorem c1_two_successes_counterexample :
    (handleNotification cxParse true ⟨[[1], [2], [3]], [], [], []⟩ [9]).1.emitted =
      [⟨.speed, [100, 0]⟩, ⟨.speed, [200, 0]⟩] ∧
    (handleNotification cxParse true ⟨[[1], [2], [3]], [], [], []⟩ [9]).1.frags = [[2]] ∧
    ¬ (handleNotification cxParse true ⟨[[1], [2], [3]], [], [], []⟩ [9]).1.emitted.length ≤ 1 := by
  refine ⟨rfl, rfl, ?_⟩
  have hlen : (handleNotification cxParse true ⟨[[1], [2], [3]], [], [], []⟩ [9]).1.emitted.length = 2 := by
    rfl
  omega

/-- Witness for C1-as-amended at the concrete parser and fragments. -/
theorem c1_first_match_witness :
    (handleNotification cxParse true ⟨[[1], [2], [3]], [], [], []⟩ [9]).1.emitted.get?
      ([] : List ParsedMsg).length = some (⟨.speed, [100, 0]⟩ : ParsedMsg) ∧
    List.Sublist (handleNotification cxParse true ⟨[[1], [2], [3]], [], [], []⟩ [9]).1.frags
      [[2], [3]] ∧
    ((handleNotification cxParse true ⟨[[1], [2], [3]], [], [], []⟩ [9]).2 = none →
      (handleNotification cxParse true ⟨[[1], [2], [3]], [], [], []⟩ [9]).1.frags.length +
        (handleNotification cxParse true ⟨[[1], [2], [3]], [], [], []⟩ [9]).1.emitted.length =
      ([[2], [3]] : List (List Nat)).length + ([] : List ParsedMsg).length + 1) :=
  c1_first_match_emits_and_scan_continues cxParse true [9] [1] [[2], [3]]
    [] [] [] ⟨.speed, [100, 0]⟩
    (handleNotification cxParse true ⟨[[1], [2], [3]], [], [], []⟩ [9]).1
    (handleNotification cxParse true ⟨[[1], [2], [3]], [], [], []⟩ [9]).2
    (by simp) rfl rfl rfl rfl
